import Mathlib

/-!
Verification of the `mrf` GUID / nano-COM foundation layer
(`mrfoundation/guid.h`, `mrfoundation/nanocom.h`).

The C++ code is shallowly embedded: machine integers (`uint8_t`, `uint16_t`,
`uint32_t`, `size_t`) become `Nat` with explicit `% 2^w` at the points where the
source performs an integral conversion; the 32-bit signed `hresult` becomes
`Int` obtained by a two's-complement reinterpretation of the 32-bit pattern;
C++ `throw` becomes `Option`/`Except` results.
-/

namespace mrf

/-- The structured guid: `uint32_t Data1; uint16_t Data2; uint16_t Data3;
uint8_t Data4[8];`.  The fixed 8-byte array `Data4` is a structure with one
field per element. -/
structure bytes8 where
  b0 : Nat
  b1 : Nat
  b2 : Nat
  b3 : Nat
  b4 : Nat
  b5 : Nat
  b6 : Nat
  b7 : Nat
deriving DecidableEq, Repr

structure guid where
  Data1 : Nat
  Data2 : Nat
  Data3 : Nat
  Data4 : bytes8
deriving DecidableEq, Repr

/-- Range invariant carried by the C++ field types: `Data1 : uint32_t`,
`Data2 Data3 : uint16_t`, `Data4 : uint8_t[8]`. -/
def guid_wf (g : guid) : Prop :=
  g.Data1 < 4294967296 ∧ g.Data2 < 65536 ∧ g.Data3 < 65536 ∧
  g.Data4.b0 < 256 ∧ g.Data4.b1 < 256 ∧ g.Data4.b2 < 256 ∧ g.Data4.b3 < 256 ∧
  g.Data4.b4 < 256 ∧ g.Data4.b5 < 256 ∧ g.Data4.b6 < 256 ∧ g.Data4.b7 < 256

instance (g : guid) : Decidable (guid_wf g) := by
  unfold guid_wf; infer_instance

/-- Source: `constexpr guid guid_null{};` -/
def guid_null : guid := ⟨0, 0, 0, ⟨0, 0, 0, 0, 0, 0, 0, 0⟩⟩

/-- The 16-byte array `uint8_t u[16]` used by the byte codecs. -/
structure bytes16 where
  u0 : Nat
  u1 : Nat
  u2 : Nat
  u3 : Nat
  u4 : Nat
  u5 : Nat
  u6 : Nat
  u7 : Nat
  u8 : Nat
  u9 : Nat
  u10 : Nat
  u11 : Nat
  u12 : Nat
  u13 : Nat
  u14 : Nat
  u15 : Nat
deriving DecidableEq, Repr

/-- Source: `encode_guid_as_variant1` (guid.h): Data1, Data2, Data3 big-endian.
Each store `u[i] = uint8_t(e)` is the conversion `e % 256`. -/
def encode_guid_as_variant1 (g : guid) : bytes16 :=
  ⟨(g.Data1 >>> 24) % 256,
   (g.Data1 >>> 16) % 256,
   (g.Data1 >>> 8) % 256,
   g.Data1 % 256,
   (g.Data2 >>> 8) % 256,
   g.Data2 % 256,
   (g.Data3 >>> 8) % 256,
   g.Data3 % 256,
   g.Data4.b0, g.Data4.b1, g.Data4.b2, g.Data4.b3,
   g.Data4.b4, g.Data4.b5, g.Data4.b6, g.Data4.b7⟩

/-- Source: `decode_guid_from_variant1` (guid.h): big-endian reassembly; the sums are
computed in `unsigned` and converted to the field types (`% 2^32`, `% 2^16`). -/
def decode_guid_from_variant1 (u : bytes16) : guid :=
  ⟨(u.u0 * 0x01000000 + u.u1 * 0x00010000 + u.u2 * 0x00000100 + u.u3) % 4294967296,
   (u.u4 * 0x0100 + u.u5) % 65536,
   (u.u6 * 0x0100 + u.u7) % 65536,
   ⟨u.u8, u.u9, u.u10, u.u11, u.u12, u.u13, u.u14, u.u15⟩⟩

/-- Source: `encode_guid_as_variant2` (guid.h): Data1, Data2, Data3 little-endian. -/
def encode_guid_as_variant2 (g : guid) : bytes16 :=
  ⟨g.Data1 % 256,
   (g.Data1 >>> 8) % 256,
   (g.Data1 >>> 16) % 256,
   (g.Data1 >>> 24) % 256,
   g.Data2 % 256,
   (g.Data2 >>> 8) % 256,
   g.Data3 % 256,
   (g.Data3 >>> 8) % 256,
   g.Data4.b0, g.Data4.b1, g.Data4.b2, g.Data4.b3,
   g.Data4.b4, g.Data4.b5, g.Data4.b6, g.Data4.b7⟩

/-- Source: `decode_guid_from_variant2` (guid.h): little-endian reassembly. -/
def decode_guid_from_variant2 (u : bytes16) : guid :=
  ⟨(u.u0 + u.u1 * 0x00000100 + u.u2 * 0x00010000 + u.u3 * 0x01000000) % 4294967296,
   (u.u4 + u.u5 * 0x0100) % 65536,
   (u.u6 + u.u7 * 0x0100) % 65536,
   ⟨u.u8, u.u9, u.u10, u.u11, u.u12, u.u13, u.u14, u.u15⟩⟩

/-!
### Text parser (`details::guid_parser<T>` in guid.h)

The null-terminated `const T*` buffer is modelled as a `List Nat` of code-unit
values together with a cursor position `pos`; reading past the end of the list
yields `0`, the terminator (`List.getD pos 0`).  A thrown `parse_error`
becomes the `Except.error` case.  Code units are compared numerically, which
covers both the byte-char and the wide-char instantiations of the template
(all characters involved are ASCII).
-/

/-- Source: `guid_parser<T>::parse_error`: message (a string literal) plus the point in
the string at which parsing failed, modelled as an offset. -/
structure parse_error where
  message : String
  parsePoint : Nat
deriving DecidableEq, Repr

/-- Source: `TryParseChar`: consume `c` if it is the current character. -/
def TryParseChar (s : List Nat) (pos : Nat) (c : Nat) : Bool × Nat :=
  if s.getD pos 0 = c then (true, pos + 1) else (false, pos)

/-- Source: `ParseChar`: like `TryParseChar` but throws `"Improperly formatted guid!"`
at the current position on mismatch. -/
def ParseChar (s : List Nat) (pos : Nat) (c : Nat) : Except parse_error Nat :=
  if s.getD pos 0 = c then .ok (pos + 1)
  else .error ⟨"Improperly formatted guid!", pos⟩

/-- The hexadecimal-digit classification inside `ParseHalfByte`:
`0`..`9` (48..57), `a`..`f` (97..102), `A`..`F` (65..70), in source order. -/
def charHexVal (c : Nat) : Option Nat :=
  if 48 ≤ c ∧ c ≤ 57 then some (c - 48)
  else if 97 ≤ c ∧ c ≤ 102 then some (c - 97 + 10)
  else if 65 ≤ c ∧ c ≤ 70 then some (c - 65 + 10)
  else none

/-- Source: `ParseHalfByte`: read one hex digit; on a non-hex character throw
`"Invalid hexadecimal character!"` pointing at that character (`*str - 1`
after the post-increment, i.e. the position that was read). -/
def ParseHalfByte (s : List Nat) (pos : Nat) : Except parse_error (Nat × Nat) :=
  match charHexVal (s.getD pos 0) with
  | some v => .ok (v, pos + 1)
  | none => .error ⟨"Invalid hexadecimal character!", pos⟩

/-- Source: `ParseByte`: `(first << 4) | second`, returned as `uint8_t` (`% 256`). -/
def ParseByte (s : List Nat) (pos : Nat) : Except parse_error (Nat × Nat) :=
  (ParseHalfByte s pos).bind fun (first, pos) =>
  (ParseHalfByte s pos).bind fun (second, pos) =>
  .ok (((first <<< 4) ||| second) % 256, pos)

/-- Source: `ParseUInt16`: `(upper << 8) | lower`, returned as `uint16_t` (`% 2^16`). -/
def ParseUInt16 (s : List Nat) (pos : Nat) : Except parse_error (Nat × Nat) :=
  (ParseByte s pos).bind fun (upper, pos) =>
  (ParseByte s pos).bind fun (lower, pos) =>
  .ok (((upper <<< 8) ||| lower) % 65536, pos)

/-- Source: `ParseUInt32`: `(high << 16) | low`, returned as `uint32_t` (`% 2^32`). -/
def ParseUInt32 (s : List Nat) (pos : Nat) : Except parse_error (Nat × Nat) :=
  (ParseUInt16 s pos).bind fun (high, pos) =>
  (ParseUInt16 s pos).bind fun (low, pos) =>
  .ok (((high <<< 16) ||| low) % 4294967296, pos)

/-- Source: `guid_parser<T>::parse`: optional `{` (123), `hex8 - hex4 - hex4 - hex4 -
hex12`, optional `}` (125), then the terminator `0`.  The `-` is 45.  The
evaluation order matches the aggregate initializer in the source. -/
def parse (s : List Nat) : Except parse_error guid :=
  match TryParseChar s 0 123 with
  | (hasBraces, pos) =>
    (ParseUInt32 s pos).bind fun (d1, pos) =>
    (ParseChar s pos 45).bind fun pos =>
    (ParseUInt16 s pos).bind fun (d2, pos) =>
    (ParseChar s pos 45).bind fun pos =>
    (ParseUInt16 s pos).bind fun (d3, pos) =>
    (ParseChar s pos 45).bind fun pos =>
    (ParseByte s pos).bind fun (e0, pos) =>
    (ParseByte s pos).bind fun (e1, pos) =>
    (ParseChar s pos 45).bind fun pos =>
    (ParseByte s pos).bind fun (e2, pos) =>
    (ParseByte s pos).bind fun (e3, pos) =>
    (ParseByte s pos).bind fun (e4, pos) =>
    (ParseByte s pos).bind fun (e5, pos) =>
    (ParseByte s pos).bind fun (e6, pos) =>
    (ParseByte s pos).bind fun (e7, pos) =>
    (if hasBraces then ParseChar s pos 125 else .ok pos).bind fun pos =>
    (ParseChar s pos 0).bind fun _ =>
    .ok ⟨d1, d2, d3, ⟨e0, e1, e2, e3, e4, e5, e6, e7⟩⟩

/-- Source: `parse_guid<T>` simply delegates to the parser. -/
def parse_guid (s : List Nat) : Except parse_error guid :=
  parse s

instance {ε α : Type} [DecidableEq ε] [DecidableEq α] : DecidableEq (Except ε α) := fun a b =>
  match a, b with
  | .ok x, .ok y =>
    if h : x = y then .isTrue (by rw [h]) else .isFalse (by intro he; cases he; exact h rfl)
  | .error x, .error y =>
    if h : x = y then .isTrue (by rw [h]) else .isFalse (by intro he; cases he; exact h rfl)
  | .ok _, .error _ => .isFalse (by intro h; cases h)
  | .error _, .ok _ => .isFalse (by intro h; cases h)

/-- Code-unit list of a Lean string (for writing concrete test inputs). -/
def strUnits (s : String) : List Nat :=
  s.data.map Char.toNat

/-!
### Text formatter (`formatted_guid<T>` in guid.h)

The `const T value[39]` buffer is a `List Nat` of code units; the element type
is modelled by the bit width `ebits` of `T` (8 for `char`, 16 or 32 for
`wchar_t`), each stored element being converted `% 2^ebits`.  A thrown
`format_error` becomes `Option.none`.  Parameter and return conversions of the
`uintN_t`-typed helpers are the corresponding `% 2^N`.
-/

/-- The in-range result value of `HalfByteToChar`: `hb + (hb < 10 ? '0' : 'a' - 10)`. -/
def halfCharV (hb : Nat) : Nat :=
  hb + (if hb < 10 then 48 else 87)

/-- Source: `formatted_guid::HalfByteToChar`: throws `format_error` for `hb >= 16`. -/
def HalfByteToChar (hb : Nat) : Option Nat :=
  if 16 ≤ hb then none
  else some (halfCharV hb)

/-- Source: `static constexpr uint16_t High(uint32_t ui32) { return ui32 >> 16; }` -/
def High (ui32 : Nat) : Nat :=
  ((ui32 % 4294967296) >>> 16) % 65536

/-- Source: `static constexpr uint16_t Low(uint32_t ui32) { return ui32 & 0xffff; }` -/
def Low (ui32 : Nat) : Nat :=
  ((ui32 % 4294967296) &&& 0xffff) % 65536

/-- Source: `static constexpr uint8_t Upper(uint16_t ui16) { return ui16 >> 8; }` -/
def Upper (ui16 : Nat) : Nat :=
  ((ui16 % 65536) >>> 8) % 256

/-- Source: `static constexpr uint8_t Lower(uint16_t ui16) { return ui16 & 0xff; }` -/
def Lower (ui16 : Nat) : Nat :=
  ((ui16 % 65536) &&& 0xff) % 256

/-- Source: `static constexpr T First(uint8_t ui8) { return HalfByteToChar(ui8 >> 4); }` -/
def First (ui8 : Nat) : Option Nat :=
  HalfByteToChar ((ui8 % 256) >>> 4)

/-- Source: `static constexpr T Second(uint8_t ui8) { return HalfByteToChar(ui8 & 0xf); }` -/
def Second (ui8 : Nat) : Option Nat :=
  HalfByteToChar ((ui8 % 256) &&& 0xf)

/-- Conversion of a character value to the buffer element type `T` of width
`ebits` bits. -/
def toElem (ebits x : Nat) : Nat :=
  x % 2 ^ ebits

/-- Left-to-right evaluation of a list of possibly-throwing element
initializers: the first `none` (thrown `format_error`) propagates. -/
def seqOpt : List (Option Nat) → Option (List Nat)
  | [] => some []
  | o :: rest => o.bind fun c => (seqOpt rest).map fun cs => c :: cs

/-- The `formatted_guid<T>::formatted_guid(const guid&)` constructor: the
39-element `value` buffer `{` hex8 `-` hex4 `-` hex4 `-` hex4 `-` hex12 `}`
`\0`, each initializer in the member-initializer order of the source.
`none` models a propagated `format_error`. -/
def formatted_guid (ebits : Nat) (g : guid) : Option (List Nat) :=
  (seqOpt
    [some 123,
     First (Upper (High g.Data1)), Second (Upper (High g.Data1)),
     First (Lower (High g.Data1)), Second (Lower (High g.Data1)),
     First (Upper (Low g.Data1)), Second (Upper (Low g.Data1)),
     First (Lower (Low g.Data1)), Second (Lower (Low g.Data1)),
     some 45,
     First (Upper g.Data2), Second (Upper g.Data2),
     First (Lower g.Data2), Second (Lower g.Data2),
     some 45,
     First (Upper g.Data3), Second (Upper g.Data3),
     First (Lower g.Data3), Second (Lower g.Data3),
     some 45,
     First g.Data4.b0, Second g.Data4.b0,
     First g.Data4.b1, Second g.Data4.b1,
     some 45,
     First g.Data4.b2, Second g.Data4.b2,
     First g.Data4.b3, Second g.Data4.b3,
     First g.Data4.b4, Second g.Data4.b4,
     First g.Data4.b5, Second g.Data4.b5,
     First g.Data4.b6, Second g.Data4.b6,
     First g.Data4.b7, Second g.Data4.b7,
     some 125, some 0]).map (List.map (toElem ebits))

/-!
### Ordering (`operator<` in guid.h) and hashing (`std::hash<mrf::guid>`)
-/

/-- Source: `memcmp(&left.Data4, &right.Data4, 8)`: sign of the first differing byte
(bytes compared as `unsigned char`). -/
def memcmp8 (x y : bytes8) : Int :=
  if x.b0 ≠ y.b0 then (x.b0 : Int) - (y.b0 : Int)
  else if x.b1 ≠ y.b1 then (x.b1 : Int) - (y.b1 : Int)
  else if x.b2 ≠ y.b2 then (x.b2 : Int) - (y.b2 : Int)
  else if x.b3 ≠ y.b3 then (x.b3 : Int) - (y.b3 : Int)
  else if x.b4 ≠ y.b4 then (x.b4 : Int) - (y.b4 : Int)
  else if x.b5 ≠ y.b5 then (x.b5 : Int) - (y.b5 : Int)
  else if x.b6 ≠ y.b6 then (x.b6 : Int) - (y.b6 : Int)
  else if x.b7 ≠ y.b7 then (x.b7 : Int) - (y.b7 : Int)
  else 0

/-- Source: `operator<(mrf::guid const&, mrf::guid const&)` (guid.h): field-by-field
comparison, falling through to `memcmp` on `Data4`; every path not returning
`true` falls out of the nested `if`s and returns `false`. -/
def guid_lt (a b : guid) : Bool :=
  if a.Data1 < b.Data1 then true
  else if a.Data1 = b.Data1 then
    if a.Data2 < b.Data2 then true
    else if a.Data2 = b.Data2 then
      if a.Data3 < b.Data3 then true
      else if a.Data3 = b.Data3 then
        decide (memcmp8 a.Data4 b.Data4 < 0)
      else false
    else false
  else false

/-- Lexicographic order on the field tuple `(Data1, Data2, Data3, Data4[0..8])`
as written in the specification, all components compared as unsigned. -/
def lex_field_lt (a b : guid) : Prop :=
  a.Data1 < b.Data1 ∨ (a.Data1 = b.Data1 ∧
    (a.Data2 < b.Data2 ∨ (a.Data2 = b.Data2 ∧
      (a.Data3 < b.Data3 ∨ (a.Data3 = b.Data3 ∧
        (a.Data4.b0 < b.Data4.b0 ∨ (a.Data4.b0 = b.Data4.b0 ∧
          (a.Data4.b1 < b.Data4.b1 ∨ (a.Data4.b1 = b.Data4.b1 ∧
            (a.Data4.b2 < b.Data4.b2 ∨ (a.Data4.b2 = b.Data4.b2 ∧
              (a.Data4.b3 < b.Data4.b3 ∨ (a.Data4.b3 = b.Data4.b3 ∧
                (a.Data4.b4 < b.Data4.b4 ∨ (a.Data4.b4 = b.Data4.b4 ∧
                  (a.Data4.b5 < b.Data4.b5 ∨ (a.Data4.b5 = b.Data4.b5 ∧
                    (a.Data4.b6 < b.Data4.b6 ∨ (a.Data4.b6 = b.Data4.b6 ∧
                      a.Data4.b7 < b.Data4.b7)))))))))))))))))))

/-- The 16 raw bytes of a structured guid in host memory on a little-endian
machine, per the `static_assert`ed layout (offsets 0, 4, 6, 8): `Data1`,
`Data2`, `Data3` little-endian, then `Data4` verbatim.  This is what
`reinterpret_cast<uint8_t const*>(&value)` yields in `std::hash`. -/
def guid_raw_bytes (g : guid) : List Nat :=
  [g.Data1 % 256, (g.Data1 >>> 8) % 256, (g.Data1 >>> 16) % 256, (g.Data1 >>> 24) % 256,
   g.Data2 % 256, (g.Data2 >>> 8) % 256,
   g.Data3 % 256, (g.Data3 >>> 8) % 256,
   g.Data4.b0, g.Data4.b1, g.Data4.b2, g.Data4.b3,
   g.Data4.b4, g.Data4.b5, g.Data4.b6, g.Data4.b7]

/-- Source: `guid_hash_traits_impl<8>::fnv_offset_basis` -/
def fnv_offset_basis_64 : Nat := 14695981039346656037

/-- Source: `guid_hash_traits_impl<8>::fnv_prime` -/
def fnv_prime_64 : Nat := 1099511628211

/-- Source: `guid_hash_traits_impl<4>::fnv_offset_basis` -/
def fnv_offset_basis_32 : Nat := 2166136261

/-- Source: `guid_hash_traits_impl<4>::fnv_prime` -/
def fnv_prime_32 : Nat := 16777619

/-- The loop body of `std::hash<mrf::guid>::operator()` for a `size_t` of
`w` bits: `result ^= buffer[next]; result *= fnv_prime;` with the
multiplication wrapping modulo `2^w`. -/
def hash_step (w prime r b : Nat) : Nat :=
  ((r ^^^ b) * prime) % 2 ^ w

/-- Source: `std::hash<mrf::guid>::operator()` with 64-bit `size_t`: fold the loop
body over the 16 raw bytes starting from the offset basis. -/
def std_hash_64 (g : guid) : Nat :=
  (guid_raw_bytes g).foldl (hash_step 64 fnv_prime_64) fnv_offset_basis_64

/-- Source: `std::hash<mrf::guid>::operator()` with 32-bit `size_t`. -/
def std_hash_32 (g : guid) : Nat :=
  (guid_raw_bytes g).foldl (hash_step 32 fnv_prime_32) fnv_offset_basis_32

/-- Modelled from the spec (§4.7): "The hash of a GUID is FNV-1a over its 16
raw bytes", i.e. starting from the offset basis, xor each byte into the
accumulator and then multiply by the prime, keeping `w` hash-width bits. -/
def fnv1a_spec (w prime : Nat) : Nat → List Nat → Nat
  | acc, [] => acc
  | acc, b :: rest => fnv1a_spec w prime (((acc ^^^ b) * prime) % 2 ^ w) rest

/-!
### nanocom.h: `hresult`, failure codes, predicates, `throw_if_failure`
-/

/-- Reinterpretation of a 32-bit pattern as the signed `int32_t` value of an
`hresult`. -/
def toInt32 (n : Nat) : Int :=
  if n % 4294967296 < 2147483648 then (n % 4294967296 : Nat)
  else (n % 4294967296 : Nat) - 4294967296

/-- Source: `details::failure_from_win32` (nanocom.h): throws
`invalid_win32_error_code` (modelled as `none`) for `code == 0`, otherwise
`0x80070000 | code` converted to the signed `hresult`.  The `uint16_t`
parameter conversion is `% 2^16`. -/
def failure_from_win32 (code : Nat) : Option Int :=
  if code % 65536 = 0 then none
  else some (toInt32 (0x80070000 ||| code % 65536))

/-- Source: `constexpr hresult failure_invalid_argument = details::failure_from_win32(87);` -/
def failure_invalid_argument : Int :=
  (failure_from_win32 87).getD 0

/-- Source: `constexpr hresult failure_out_of_memory = details::failure_from_win32(14);` -/
def failure_out_of_memory : Int :=
  (failure_from_win32 14).getD 0

/-- Source: `is_success(hresult)`: `result >= 0`. -/
def is_success (result : Int) : Bool :=
  decide (0 ≤ result)

/-- Source: `is_failure(hresult)`: `!is_success(result)`. -/
def is_failure (result : Int) : Bool :=
  !is_success result

/-- Source: `struct hresult_failure { const hresult code; }` (the constructor aborts
the process when handed a success code; values of this type therefore carry
the code unchanged). -/
structure hresult_failure where
  code : Int
deriving DecidableEq, Repr

/-- Source: `throw_if_failure(hresult)`: throws `hresult_failure{result}` when
`is_failure(result)`, otherwise returns normally. -/
def throw_if_failure (result : Int) : Except hresult_failure Unit :=
  if is_failure result then .error ⟨result⟩ else .ok ()

/-!
### Auxiliary definitions used by the theorems
-/

/-- Map a code unit to its upper-case hex form: `a`..`f` (97..102) become
`A`..`F` (65..70); everything else is unchanged. -/
def upHex (c : Nat) : Nat :=
  if 97 ≤ c ∧ c ≤ 102 then c - 32 else c

/-- Map a code unit to its lower-case hex form: `A`..`F` (65..70) become
`a`..`f` (97..102); everything else is unchanged. -/
def downHex (c : Nat) : Nat :=
  if 65 ≤ c ∧ c ≤ 70 then c + 32 else c

/-- The canonical 39-code-unit braced text of the 16 bytes
`b0 ... b15` (two lower-case hex digits per byte, hyphens after bytes 3, 5, 7
and 9): the shape produced by the formatter and consumed by the parser. -/
def guid_text (b0 b1 b2 b3 b4 b5 b6 b7 b8 b9 b10 b11 b12 b13 b14 b15 : Nat) : List Nat :=
  [123,
   halfCharV (b0 / 16), halfCharV (b0 % 16), halfCharV (b1 / 16), halfCharV (b1 % 16),
   halfCharV (b2 / 16), halfCharV (b2 % 16), halfCharV (b3 / 16), halfCharV (b3 % 16),
   45,
   halfCharV (b4 / 16), halfCharV (b4 % 16), halfCharV (b5 / 16), halfCharV (b5 % 16),
   45,
   halfCharV (b6 / 16), halfCharV (b6 % 16), halfCharV (b7 / 16), halfCharV (b7 % 16),
   45,
   halfCharV (b8 / 16), halfCharV (b8 % 16), halfCharV (b9 / 16), halfCharV (b9 % 16),
   45,
   halfCharV (b10 / 16), halfCharV (b10 % 16), halfCharV (b11 / 16), halfCharV (b11 % 16),
   halfCharV (b12 / 16), halfCharV (b12 % 16), halfCharV (b13 / 16), halfCharV (b13 % 16),
   halfCharV (b14 / 16), halfCharV (b14 % 16), halfCharV (b15 / 16), halfCharV (b15 % 16),
   125, 0]

/-!
### Helper lemmas
-/

theorem lor_shift_add {b k : Nat} (a : Nat) (h : b < 2 ^ k) :
    (a <<< k) ||| b = a * 2 ^ k + b := by
  calc (a <<< k) ||| b = 2 ^ k * a ||| b := by rw [Nat.shiftLeft_eq, Nat.mul_comm]
    _ = 2 ^ k * a + b := (Nat.mul_add_lt_is_or h a).symm
    _ = a * 2 ^ k + b := by rw [Nat.mul_comm]

/-!
### C2: byte-codec round trips
-/

/-- C2: for every guid `g` (fields in range) and each variant `K ∈ {1, 2}`,
decoding the 16-byte array produced by the corresponding encoder yields `g`
back. -/
theorem decode_encode_variant_roundtrip (g : guid) (h : guid_wf g) :
    decode_guid_from_variant1 (encode_guid_as_variant1 g) = g ∧
    decode_guid_from_variant2 (encode_guid_as_variant2 g) = g := by
  obtain ⟨d1, d2, d3, b0, b1, b2, b3, b4, b5, b6, b7⟩ := g
  obtain ⟨h1, h2, h3, hb0, hb1, hb2, hb3, hb4, hb5, hb6, hb7⟩ := h
  simp only [decode_guid_from_variant1, encode_guid_as_variant1,
    decode_guid_from_variant2, encode_guid_as_variant2,
    Nat.shiftRight_eq_div_pow, guid.mk.injEq, bytes8.mk.injEq] at *
  norm_num
  omega

/-- Witness for `decode_encode_variant_roundtrip` at a concrete guid. -/
theorem decode_encode_variant_roundtrip_witness :
    guid_wf ⟨0x00112233, 0x4455, 0x6677, ⟨0x88, 0x99, 0xaa, 0xbb, 0xcc, 0xdd, 0xee, 0xff⟩⟩ ∧
    (decode_guid_from_variant1 (encode_guid_as_variant1
        ⟨0x00112233, 0x4455, 0x6677, ⟨0x88, 0x99, 0xaa, 0xbb, 0xcc, 0xdd, 0xee, 0xff⟩⟩) =
      ⟨0x00112233, 0x4455, 0x6677, ⟨0x88, 0x99, 0xaa, 0xbb, 0xcc, 0xdd, 0xee, 0xff⟩⟩ ∧
     decode_guid_from_variant2 (encode_guid_as_variant2
        ⟨0x00112233, 0x4455, 0x6677, ⟨0x88, 0x99, 0xaa, 0xbb, 0xcc, 0xdd, 0xee, 0xff⟩⟩) =
      ⟨0x00112233, 0x4455, 0x6677, ⟨0x88, 0x99, 0xaa, 0xbb, 0xcc, 0xdd, 0xee, 0xff⟩⟩) :=
  ⟨by decide, decode_encode_variant_roundtrip _ (by decide)⟩

/-!
### C3: concrete encoder outputs
-/

/-- C3: on `{00112233-4455-6677-8899-aabbccddeeff}`, variant 1 encodes
big-endian `00 11 22 33 44 55 66 77 88 99 aa bb cc dd ee ff` and variant 2
little-endian `33 22 11 00 55 44 77 66 88 99 aa bb cc dd ee ff`. -/
theorem encode_variant_concrete :
    encode_guid_as_variant1 ⟨0x00112233, 0x4455, 0x6677, ⟨0x88, 0x99, 0xaa, 0xbb, 0xcc, 0xdd, 0xee, 0xff⟩⟩ =
      ⟨0x00, 0x11, 0x22, 0x33, 0x44, 0x55, 0x66, 0x77, 0x88, 0x99, 0xaa, 0xbb, 0xcc, 0xdd, 0xee, 0xff⟩ ∧
    encode_guid_as_variant2 ⟨0x00112233, 0x4455, 0x6677, ⟨0x88, 0x99, 0xaa, 0xbb, 0xcc, 0xdd, 0xee, 0xff⟩⟩ =
      ⟨0x33, 0x22, 0x11, 0x00, 0x55, 0x44, 0x77, 0x66, 0x88, 0x99, 0xaa, 0xbb, 0xcc, 0xdd, 0xee, 0xff⟩ := by
  decide

/-!
### C4: ordering is lexicographic over the field tuple
-/

theorem memcmp8_neg_iff (x y : bytes8) :
    memcmp8 x y < 0 ↔
      (x.b0 < y.b0 ∨ (x.b0 = y.b0 ∧
        (x.b1 < y.b1 ∨ (x.b1 = y.b1 ∧
          (x.b2 < y.b2 ∨ (x.b2 = y.b2 ∧
            (x.b3 < y.b3 ∨ (x.b3 = y.b3 ∧
              (x.b4 < y.b4 ∨ (x.b4 = y.b4 ∧
                (x.b5 < y.b5 ∨ (x.b5 = y.b5 ∧
                  (x.b6 < y.b6 ∨ (x.b6 = y.b6 ∧
                    x.b7 < y.b7)))))))))))))) := by
  obtain ⟨x0, x1, x2, x3, x4, x5, x6, x7⟩ := x
  obtain ⟨y0, y1, y2, y3, y4, y5, y6, y7⟩ := y
  simp only [memcmp8]
  split_ifs <;> omega

/-- C4: `a < b` holds exactly when `(Data1, Data2, Data3, Data4[0..8])` is
lexicographically smaller, fields compared as unsigned integers and the
`Data4` bytes as unsigned bytes. -/
theorem guid_lt_iff_lex (a b : guid) :
    guid_lt a b = true ↔ lex_field_lt a b := by
  obtain ⟨d1, d2, d3, x0, x1, x2, x3, x4, x5, x6, x7⟩ := a
  obtain ⟨e1, e2, e3, y0, y1, y2, y3, y4, y5, y6, y7⟩ := b
  simp only [guid_lt, lex_field_lt]
  split_ifs with h1 h2 h3 h4 h5 h6 <;>
    simp_all [memcmp8_neg_iff]

/-!
### C9: `throw_if_failure` throws exactly on failure codes
-/

/-- C9: `throw_if_failure r` throws `hresult_failure` carrying exactly `r`
iff `is_failure r` (i.e. `r < 0`), and returns normally iff `is_success r`
(i.e. `r >= 0`). -/
theorem throw_if_failure_spec (r : Int) :
    (throw_if_failure r = .error ⟨r⟩ ↔ is_failure r = true) ∧
    (throw_if_failure r = .ok () ↔ is_success r = true) ∧
    (is_failure r = true ↔ r < 0) ∧
    (is_success r = true ↔ 0 ≤ r) := by
  simp only [throw_if_failure, is_failure, is_success]
  split_ifs with h <;> simp_all

/-!
### C8: the `0x80070000 | e` failure encoding
-/

/-- C8: for every 16-bit OS error code `e ≠ 0`, `failure_from_win32 e` is
`0x80070000 | e` reinterpreted as a signed 32-bit value; the high bit of the
pattern is set and the value is negative.  In particular
`failure_invalid_argument = failure_from_win32(87)` has pattern
`0x80070057`. -/
theorem failure_from_win32_spec (e : Nat) (h0 : e ≠ 0) (h16 : e < 65536) :
    failure_from_win32 e = some (((0x80070000 ||| e : Nat) : Int) - 4294967296) ∧
    ((0x80070000 ||| e : Nat) : Int) - 4294967296 < 0 ∧
    2147483648 ≤ (0x80070000 ||| e : Nat) ∧
    failure_from_win32 87 = some failure_invalid_argument ∧
    failure_invalid_argument % 4294967296 = 0x80070057 ∧
    failure_invalid_argument = (0x80070057 : Int) - 4294967296 := by
  have hor : (0x80070000 : Nat) ||| e = 0x80070000 + e := by
    have h2 := lor_shift_add (b := e) (k := 16) 32775 (by omega)
    rw [Nat.shiftLeft_eq] at h2
    norm_num at h2 ⊢
    exact h2
  have he : e % 65536 = e := Nat.mod_eq_of_lt h16
  refine ⟨?_, by omega, by omega, by decide, by decide, by decide⟩
  simp only [failure_from_win32, he, if_neg h0, toInt32, hor]
  rw [if_neg (by omega), Nat.mod_eq_of_lt (by omega)]

/-- Witness for `failure_from_win32_spec` at `e = 87`. -/
theorem failure_from_win32_spec_witness :
    (87 : Nat) ≠ 0 ∧ 87 < 65536 ∧
    failure_from_win32 87 = some (((0x80070000 ||| 87 : Nat) : Int) - 4294967296) :=
  ⟨by decide, by decide, (failure_from_win32_spec 87 (by decide) (by decide)).1⟩

/-!
### C7: `std::hash<mrf::guid>` is FNV-1a over the raw bytes
-/

/-- C7: for both `size_t` widths, the hash is the FNV-1a fold over the 16
raw bytes of the guid with the stated offset basis and prime, and equal guids
hash equally. -/
theorem std_hash_is_fnv1a :
    (∀ g : guid,
      std_hash_64 g = fnv1a_spec 64 1099511628211 14695981039346656037 (guid_raw_bytes g) ∧
      std_hash_32 g = fnv1a_spec 32 16777619 2166136261 (guid_raw_bytes g)) ∧
    (∀ a b : guid, a = b → std_hash_64 a = std_hash_64 b ∧ std_hash_32 a = std_hash_32 b) := by
  constructor
  · intro g
    exact ⟨rfl, rfl⟩
  · intro a b h
    rw [h]
    exact ⟨rfl, rfl⟩

/-- Witness for `std_hash_is_fnv1a` at the null guid. -/
theorem std_hash_is_fnv1a_witness :
    std_hash_64 guid_null = std_hash_64 guid_null ∧
    std_hash_32 guid_null = std_hash_32 guid_null :=
  std_hash_is_fnv1a.2 guid_null guid_null rfl

/-!
### Bitwise helper lemmas
-/

theorem and_15_eq_mod (x : Nat) : x &&& 15 = x % 16 := by
  have h := Nat.and_pow_two_sub_one_eq_mod x 4
  norm_num at h
  exact h

theorem and_255_eq_mod (x : Nat) : x &&& 255 = x % 256 := by
  have h := Nat.and_pow_two_sub_one_eq_mod x 8
  norm_num at h
  exact h

theorem and_65535_eq_mod (x : Nat) : x &&& 65535 = x % 65536 := by
  have h := Nat.and_pow_two_sub_one_eq_mod x 16
  norm_num at h
  exact h

theorem shiftRight_4_eq_div (x : Nat) : x >>> 4 = x / 16 := by
  rw [Nat.shiftRight_eq_div_pow]

theorem shiftRight_8_eq_div (x : Nat) : x >>> 8 = x / 256 := by
  rw [Nat.shiftRight_eq_div_pow]

theorem shiftRight_16_eq_div (x : Nat) : x >>> 16 = x / 65536 := by
  rw [Nat.shiftRight_eq_div_pow]

theorem shiftRight_24_eq_div (x : Nat) : x >>> 24 = x / 16777216 := by
  rw [Nat.shiftRight_eq_div_pow]

/-!
### Formatter evaluation lemmas
-/

theorem First_eq (x : Nat) : First x = some (halfCharV ((x % 256) / 16)) := by
  unfold First HalfByteToChar
  rw [shiftRight_4_eq_div, if_neg (by omega)]

theorem Second_eq (x : Nat) : Second x = some (halfCharV ((x % 256) % 16)) := by
  unfold Second HalfByteToChar
  rw [show (0xf : Nat) = 15 from rfl, and_15_eq_mod, if_neg (by omega)]

/-!
### Parser evaluation lemmas
-/

theorem charHexVal_halfCharV : ∀ n : Nat, n < 16 → charHexVal (halfCharV n) = some n := by
  decide

theorem ParseHalfByte_ok {s : List Nat} {pos v : Nat}
    (h : charHexVal (s.getD pos 0) = some v) :
    ParseHalfByte s pos = .ok (v, pos + 1) := by
  unfold ParseHalfByte
  rw [h]

theorem ParseByte_ok {s : List Nat} {pos x : Nat} (hx : x < 256)
    (h1 : s.getD pos 0 = halfCharV (x / 16))
    (h2 : s.getD (pos + 1) 0 = halfCharV (x % 16)) :
    ParseByte s pos = .ok (x, pos + 2) := by
  have e1 : ParseHalfByte s pos = .ok (x / 16, pos + 1) :=
    ParseHalfByte_ok (by rw [h1]; exact charHexVal_halfCharV _ (by omega))
  have e2 : ParseHalfByte s (pos + 1) = .ok (x % 16, pos + 1 + 1) :=
    ParseHalfByte_ok (by rw [h2]; exact charHexVal_halfCharV _ (by omega))
  have hv : ((x / 16) <<< 4 ||| x % 16) % 256 = x := by
    rw [lor_shift_add _ (show x % 16 < 2 ^ 4 by omega)]
    norm_num
    omega
  simp [ParseByte, e1, e2, Except.bind, hv]

theorem ParseUInt16_ok {s : List Nat} {pos a b : Nat} (ha : a < 256) (hb : b < 256)
    (h1 : s.getD pos 0 = halfCharV (a / 16))
    (h2 : s.getD (pos + 1) 0 = halfCharV (a % 16))
    (h3 : s.getD (pos + 2) 0 = halfCharV (b / 16))
    (h4 : s.getD (pos + 3) 0 = halfCharV (b % 16)) :
    ParseUInt16 s pos = .ok (a * 256 + b, pos + 4) := by
  have e1 : ParseByte s pos = .ok (a, pos + 2) := ParseByte_ok ha h1 h2
  have e2 : ParseByte s (pos + 2) = .ok (b, pos + 2 + 2) := ParseByte_ok hb h3 h4
  have hv : (a <<< 8 ||| b) % 65536 = a * 256 + b := by
    rw [lor_shift_add _ (show b < 2 ^ 8 by omega)]
    norm_num
    omega
  have hp : pos + 2 + 2 = pos + 4 := by omega
  simp [ParseUInt16, e1, e2, Except.bind, hv, hp]

theorem ParseUInt32_ok {s : List Nat} {pos a b c d : Nat}
    (ha : a < 256) (hb : b < 256) (hc : c < 256) (hd : d < 256)
    (h1 : s.getD pos 0 = halfCharV (a / 16))
    (h2 : s.getD (pos + 1) 0 = halfCharV (a % 16))
    (h3 : s.getD (pos + 2) 0 = halfCharV (b / 16))
    (h4 : s.getD (pos + 3) 0 = halfCharV (b % 16))
    (h5 : s.getD (pos + 4) 0 = halfCharV (c / 16))
    (h6 : s.getD (pos + 5) 0 = halfCharV (c % 16))
    (h7 : s.getD (pos + 6) 0 = halfCharV (d / 16))
    (h8 : s.getD (pos + 7) 0 = halfCharV (d % 16)) :
    ParseUInt32 s pos = .ok (a * 16777216 + b * 65536 + c * 256 + d, pos + 8) := by
  have e1 : ParseUInt16 s pos = .ok (a * 256 + b, pos + 4) := ParseUInt16_ok ha hb h1 h2 h3 h4
  have e2 : ParseUInt16 s (pos + 4) = .ok (c * 256 + d, pos + 4 + 4) :=
    ParseUInt16_ok hc hd h5 h6 h7 h8
  have hv : ((a * 256 + b) <<< 16 ||| (c * 256 + d)) % 4294967296 =
      a * 16777216 + b * 65536 + c * 256 + d := by
    rw [lor_shift_add _ (show c * 256 + d < 2 ^ 16 by omega)]
    norm_num
    omega
  have hp : pos + 4 + 4 = pos + 8 := by omega
  simp [ParseUInt32, e1, e2, Except.bind, hv, hp]

/-- Running the parser over the canonical braced text of 16 bytes recovers
the big-endian reassembly of those bytes. -/
theorem parse_guid_text_ok (b0 b1 b2 b3 b4 b5 b6 b7 b8 b9 b10 b11 b12 b13 b14 b15 : Nat)
    (h0 : b0 < 256) (h1 : b1 < 256) (h2 : b2 < 256) (h3 : b3 < 256)
    (h4 : b4 < 256) (h5 : b5 < 256) (h6 : b6 < 256) (h7 : b7 < 256)
    (h8 : b8 < 256) (h9 : b9 < 256) (h10 : b10 < 256) (h11 : b11 < 256)
    (h12 : b12 < 256) (h13 : b13 < 256) (h14 : b14 < 256) (h15 : b15 < 256) :
    parse_guid (guid_text b0 b1 b2 b3 b4 b5 b6 b7 b8 b9 b10 b11 b12 b13 b14 b15) =
      .ok ⟨b0 * 16777216 + b1 * 65536 + b2 * 256 + b3,
           b4 * 256 + b5,
           b6 * 256 + b7,
           ⟨b8, b9, b10, b11, b12, b13, b14, b15⟩⟩ := by
  have ht : TryParseChar (guid_text b0 b1 b2 b3 b4 b5 b6 b7 b8 b9 b10 b11 b12 b13 b14 b15) 0 123 =
      (true, 1) := rfl
  have e1 : ParseUInt32 (guid_text b0 b1 b2 b3 b4 b5 b6 b7 b8 b9 b10 b11 b12 b13 b14 b15) 1 =
      .ok (b0 * 16777216 + b1 * 65536 + b2 * 256 + b3, 9) :=
    ParseUInt32_ok h0 h1 h2 h3 rfl rfl rfl rfl rfl rfl rfl rfl
  have c9 : ParseChar (guid_text b0 b1 b2 b3 b4 b5 b6 b7 b8 b9 b10 b11 b12 b13 b14 b15) 9 45 =
      .ok 10 := rfl
  have e2 : ParseUInt16 (guid_text b0 b1 b2 b3 b4 b5 b6 b7 b8 b9 b10 b11 b12 b13 b14 b15) 10 =
      .ok (b4 * 256 + b5, 14) :=
    ParseUInt16_ok h4 h5 rfl rfl rfl rfl
  have c14 : ParseChar (guid_text b0 b1 b2 b3 b4 b5 b6 b7 b8 b9 b10 b11 b12 b13 b14 b15) 14 45 =
      .ok 15 := rfl
  have e3 : ParseUInt16 (guid_text b0 b1 b2 b3 b4 b5 b6 b7 b8 b9 b10 b11 b12 b13 b14 b15) 15 =
      .ok (b6 * 256 + b7, 19) :=
    ParseUInt16_ok h6 h7 rfl rfl rfl rfl
  have c19 : ParseChar (guid_text b0 b1 b2 b3 b4 b5 b6 b7 b8 b9 b10 b11 b12 b13 b14 b15) 19 45 =
      .ok 20 := rfl
  have e4 : ParseByte (guid_text b0 b1 b2 b3 b4 b5 b6 b7 b8 b9 b10 b11 b12 b13 b14 b15) 20 =
      .ok (b8, 22) := ParseByte_ok h8 rfl rfl
  have e5 : ParseByte (guid_text b0 b1 b2 b3 b4 b5 b6 b7 b8 b9 b10 b11 b12 b13 b14 b15) 22 =
      .ok (b9, 24) := ParseByte_ok h9 rfl rfl
  have c24 : ParseChar (guid_text b0 b1 b2 b3 b4 b5 b6 b7 b8 b9 b10 b11 b12 b13 b14 b15) 24 45 =
      .ok 25 := rfl
  have e6 : ParseByte (guid_text b0 b1 b2 b3 b4 b5 b6 b7 b8 b9 b10 b11 b12 b13 b14 b15) 25 =
      .ok (b10, 27) := ParseByte_ok h10 rfl rfl
  have e7 : ParseByte (guid_text b0 b1 b2 b3 b4 b5 b6 b7 b8 b9 b10 b11 b12 b13 b14 b15) 27 =
      .ok (b11, 29) := ParseByte_ok h11 rfl rfl
  have e8 : ParseByte (guid_text b0 b1 b2 b3 b4 b5 b6 b7 b8 b9 b10 b11 b12 b13 b14 b15) 29 =
      .ok (b12, 31) := ParseByte_ok h12 rfl rfl
  have e9 : ParseByte (guid_text b0 b1 b2 b3 b4 b5 b6 b7 b8 b9 b10 b11 b12 b13 b14 b15) 31 =
      .ok (b13, 33) := ParseByte_ok h13 rfl rfl
  have e10 : ParseByte (guid_text b0 b1 b2 b3 b4 b5 b6 b7 b8 b9 b10 b11 b12 b13 b14 b15) 33 =
      .ok (b14, 35) := ParseByte_ok h14 rfl rfl
  have e11 : ParseByte (guid_text b0 b1 b2 b3 b4 b5 b6 b7 b8 b9 b10 b11 b12 b13 b14 b15) 35 =
      .ok (b15, 37) := ParseByte_ok h15 rfl rfl
  have c37 : ParseChar (guid_text b0 b1 b2 b3 b4 b5 b6 b7 b8 b9 b10 b11 b12 b13 b14 b15) 37 125 =
      .ok 38 := rfl
  have c38 : ParseChar (guid_text b0 b1 b2 b3 b4 b5 b6 b7 b8 b9 b10 b11 b12 b13 b14 b15) 38 0 =
      .ok 39 := rfl
  simp only [parse_guid, parse, ht, e1, c9, e2, c14, e3, c19, e4, e5, c24, e6, e7, e8, e9,
    e10, e11, c37, c38, Except.bind, if_true]

/-- For an in-range guid the formatter produces exactly the canonical braced
text of its Variant-1 (big-endian) bytes, for any element width of at least
7 bits. -/
theorem formatted_guid_eq_text (ebits : Nat) (g : guid) (hw : guid_wf g) (he : 7 ≤ ebits) :
    formatted_guid ebits g = some (guid_text
      ((g.Data1 >>> 24) % 256) ((g.Data1 >>> 16) % 256) ((g.Data1 >>> 8) % 256) (g.Data1 % 256)
      ((g.Data2 >>> 8) % 256) (g.Data2 % 256)
      ((g.Data3 >>> 8) % 256) (g.Data3 % 256)
      g.Data4.b0 g.Data4.b1 g.Data4.b2 g.Data4.b3
      g.Data4.b4 g.Data4.b5 g.Data4.b6 g.Data4.b7) := by
  obtain ⟨d1, d2, d3, b0, b1, b2, b3, b4, b5, b6, b7⟩ := g
  obtain ⟨hd1, hd2, hd3, hb0, hb1, hb2, hb3, hb4, hb5, hb6, hb7⟩ := hw
  have hpow : (128 : Nat) ≤ 2 ^ ebits := by
    calc (128 : Nat) = 2 ^ 7 := by norm_num
      _ ≤ 2 ^ ebits := Nat.pow_le_pow_right (by norm_num) he
  have T1 : ∀ x : Nat, toElem ebits (halfCharV (x % 256 / 16)) = halfCharV (x % 256 / 16) := by
    intro x
    unfold toElem halfCharV
    apply Nat.mod_eq_of_lt
    split <;> omega
  have T2 : ∀ x : Nat, toElem ebits (halfCharV (x % 16)) = halfCharV (x % 16) := by
    intro x
    unfold toElem halfCharV
    apply Nat.mod_eq_of_lt
    split <;> omega
  have hb0' : b0 < 256 := hb0
  have hb1' : b1 < 256 := hb1
  have hb2' : b2 < 256 := hb2
  have hb3' : b3 < 256 := hb3
  have hb4' : b4 < 256 := hb4
  have hb5' : b5 < 256 := hb5
  have hb6' : b6 < 256 := hb6
  have hb7' : b7 < 256 := hb7
  have U0 : toElem ebits (halfCharV (b0 / 16)) = halfCharV (b0 / 16) := by
    unfold toElem halfCharV
    apply Nat.mod_eq_of_lt
    split <;> omega
  have U1 : toElem ebits (halfCharV (b1 / 16)) = halfCharV (b1 / 16) := by
    unfold toElem halfCharV
    apply Nat.mod_eq_of_lt
    split <;> omega
  have U2 : toElem ebits (halfCharV (b2 / 16)) = halfCharV (b2 / 16) := by
    unfold toElem halfCharV
    apply Nat.mod_eq_of_lt
    split <;> omega
  have U3 : toElem ebits (halfCharV (b3 / 16)) = halfCharV (b3 / 16) := by
    unfold toElem halfCharV
    apply Nat.mod_eq_of_lt
    split <;> omega
  have U4 : toElem ebits (halfCharV (b4 / 16)) = halfCharV (b4 / 16) := by
    unfold toElem halfCharV
    apply Nat.mod_eq_of_lt
    split <;> omega
  have U5 : toElem ebits (halfCharV (b5 / 16)) = halfCharV (b5 / 16) := by
    unfold toElem halfCharV
    apply Nat.mod_eq_of_lt
    split <;> omega
  have U6 : toElem ebits (halfCharV (b6 / 16)) = halfCharV (b6 / 16) := by
    unfold toElem halfCharV
    apply Nat.mod_eq_of_lt
    split <;> omega
  have U7 : toElem ebits (halfCharV (b7 / 16)) = halfCharV (b7 / 16) := by
    unfold toElem halfCharV
    apply Nat.mod_eq_of_lt
    split <;> omega
  have T123 : toElem ebits 123 = 123 := Nat.mod_eq_of_lt (by omega)
  have T45 : toElem ebits 45 = 45 := Nat.mod_eq_of_lt (by omega)
  have T125 : toElem ebits 125 = 125 := Nat.mod_eq_of_lt (by omega)
  have T0 : toElem ebits 0 = 0 := Nat.mod_eq_of_lt (by omega)
  have E0 : Upper (High d1) % 256 = d1 >>> 24 % 256 := by
    unfold Upper High
    rw [shiftRight_8_eq_div, shiftRight_16_eq_div, shiftRight_24_eq_div]
    omega
  have E1 : Lower (High d1) % 256 = d1 >>> 16 % 256 := by
    unfold Lower High
    rw [and_255_eq_mod, shiftRight_16_eq_div]
    omega
  have E2 : Upper (Low d1) % 256 = d1 >>> 8 % 256 := by
    unfold Upper Low
    rw [and_65535_eq_mod, shiftRight_8_eq_div]
    omega
  have E3 : Lower (Low d1) % 256 = d1 % 256 := by
    unfold Lower Low
    rw [and_65535_eq_mod, and_255_eq_mod]
    omega
  have E4 : Upper d2 % 256 = d2 >>> 8 % 256 := by
    unfold Upper
    rw [shiftRight_8_eq_div, shiftRight_8_eq_div]
    omega
  have E5 : Lower d2 % 256 = d2 % 256 := by
    unfold Lower
    rw [and_255_eq_mod]
    omega
  have E6 : Upper d3 % 256 = d3 >>> 8 % 256 := by
    unfold Upper
    rw [shiftRight_8_eq_div, shiftRight_8_eq_div]
    omega
  have E7 : Lower d3 % 256 = d3 % 256 := by
    unfold Lower
    rw [and_255_eq_mod]
    omega
  have F0 : b0 % 256 = b0 := Nat.mod_eq_of_lt hb0
  have F1 : b1 % 256 = b1 := Nat.mod_eq_of_lt hb1
  have F2 : b2 % 256 = b2 := Nat.mod_eq_of_lt hb2
  have F3 : b3 % 256 = b3 := Nat.mod_eq_of_lt hb3
  have F4 : b4 % 256 = b4 := Nat.mod_eq_of_lt hb4
  have F5 : b5 % 256 = b5 := Nat.mod_eq_of_lt hb5
  have F6 : b6 % 256 = b6 := Nat.mod_eq_of_lt hb6
  have F7 : b7 % 256 = b7 := Nat.mod_eq_of_lt hb7
  simp only [formatted_guid, First_eq, Second_eq, seqOpt, Option.some_bind, Option.map_some',
    List.map_cons, List.map_nil, guid_text, E0, E1, E2, E3, E4, E5, E6, E7,
    F0, F1, F2, F3, F4, F5, F6, F7, T1, T2, T123, T45, T125, T0,
    U0, U1, U2, U3, U4, U5, U6, U7]

/-!
### C1: text round trip, C10: the formatter is total
-/

/-- C1: for every guid `g` (fields in range) and every element width of at
least 7 bits — covering both the byte-char and the wide-char element types —
parsing the buffer produced by the formatter yields `g` back. -/
theorem parse_format_roundtrip (g : guid) (ebits : Nat) (hw : guid_wf g) (he : 7 ≤ ebits) :
    ∃ l, formatted_guid ebits g = some l ∧ parse_guid l = .ok g := by
  obtain ⟨d1, d2, d3, b0, b1, b2, b3, b4, b5, b6, b7⟩ := g
  obtain ⟨hd1, hd2, hd3, hb0, hb1, hb2, hb3, hb4, hb5, hb6, hb7⟩ := hw
  have hd1' : d1 < 4294967296 := hd1
  have hd2' : d2 < 65536 := hd2
  have hd3' : d3 < 65536 := hd3
  have hb0' : b0 < 256 := hb0
  have hb1' : b1 < 256 := hb1
  have hb2' : b2 < 256 := hb2
  have hb3' : b3 < 256 := hb3
  have hb4' : b4 < 256 := hb4
  have hb5' : b5 < 256 := hb5
  have hb6' : b6 < 256 := hb6
  have hb7' : b7 < 256 := hb7
  refine ⟨_, formatted_guid_eq_text ebits _
    ⟨hd1', hd2', hd3', hb0', hb1', hb2', hb3', hb4', hb5', hb6', hb7'⟩ he, ?_⟩
  rw [parse_guid_text_ok _ _ _ _ _ _ _ _ _ _ _ _ _ _ _ _
    (Nat.mod_lt _ (by norm_num)) (Nat.mod_lt _ (by norm_num)) (Nat.mod_lt _ (by norm_num))
    (Nat.mod_lt _ (by norm_num)) (Nat.mod_lt _ (by norm_num)) (Nat.mod_lt _ (by norm_num))
    (Nat.mod_lt _ (by norm_num)) (Nat.mod_lt _ (by norm_num))
    hb0' hb1' hb2' hb3' hb4' hb5' hb6' hb7']
  simp only [Except.ok.injEq, guid.mk.injEq, bytes8.mk.injEq,
    shiftRight_24_eq_div, shiftRight_16_eq_div, shiftRight_8_eq_div, and_true]
  omega

/-- Witness for `parse_format_roundtrip` at a concrete guid and the two
element widths. -/
theorem parse_format_roundtrip_witness :
    (guid_wf ⟨0x00112233, 0x4455, 0x6677, ⟨0x88, 0x99, 0xaa, 0xbb, 0xcc, 0xdd, 0xee, 0xff⟩⟩ ∧
      7 ≤ 8 ∧ 7 ≤ 32) ∧
    (∃ l, formatted_guid 8 ⟨0x00112233, 0x4455, 0x6677, ⟨0x88, 0x99, 0xaa, 0xbb, 0xcc, 0xdd, 0xee, 0xff⟩⟩ =
        some l ∧
      parse_guid l = .ok ⟨0x00112233, 0x4455, 0x6677, ⟨0x88, 0x99, 0xaa, 0xbb, 0xcc, 0xdd, 0xee, 0xff⟩⟩) ∧
    (∃ l, formatted_guid 32 ⟨0x00112233, 0x4455, 0x6677, ⟨0x88, 0x99, 0xaa, 0xbb, 0xcc, 0xdd, 0xee, 0xff⟩⟩ =
        some l ∧
      parse_guid l = .ok ⟨0x00112233, 0x4455, 0x6677, ⟨0x88, 0x99, 0xaa, 0xbb, 0xcc, 0xdd, 0xee, 0xff⟩⟩) :=
  ⟨⟨by decide, by decide, by decide⟩,
   parse_format_roundtrip _ 8 (by decide) (by decide),
   parse_format_roundtrip _ 32 (by decide) (by decide)⟩

/-- C10: the formatter never throws `format_error`: `First` and `Second`
always yield a character (the nibble handed to `HalfByteToChar` is below 16),
and for every guid and element width a complete 39-element buffer
(38 characters plus terminator) is produced. -/
theorem formatted_guid_never_throws :
    (∀ x : Nat, First x ≠ none ∧ Second x ≠ none) ∧
    (∀ (ebits : Nat) (g : guid), ∃ l, formatted_guid ebits g = some l ∧ l.length = 39) := by
  constructor
  · intro x
    constructor <;> simp [First_eq, Second_eq]
  · intro ebits g
    simp only [formatted_guid, First_eq, Second_eq, seqOpt, Option.some_bind, Option.map_some',
      List.map_cons, List.map_nil]
    refine ⟨_, rfl, ?_⟩
    simp

/-!
### C5: parse errors point at the offending character
-/

/-- C5: wherever a hex digit is required, a non-hex code unit makes the
parser throw `parse_error` with the human-readable message
`"Invalid hexadecimal character!"` whose `parsePoint` is exactly the
position of that code unit; concretely,
`"\x7b00000000-0000-0000-0000-00000000000G\x7d"` fails at offset 36, the position
of the `G` (code 71). -/
theorem parse_nonhex_error :
    (∀ c : Nat, charHexVal c = none ↔
      ¬((48 ≤ c ∧ c ≤ 57) ∨ (97 ≤ c ∧ c ≤ 102) ∨ (65 ≤ c ∧ c ≤ 70))) ∧
    (∀ (s : List Nat) (pos : Nat), charHexVal (s.getD pos 0) = none →
      ParseHalfByte s pos = .error ⟨"Invalid hexadecimal character!", pos⟩) ∧
    parse_guid (strUnits "\x7b00000000-0000-0000-0000-00000000000G\x7d") =
      .error ⟨"Invalid hexadecimal character!", 36⟩ ∧
    (strUnits "\x7b00000000-0000-0000-0000-00000000000G\x7d").getD 36 0 = 71 := by
  refine ⟨?_, ?_, by decide, by decide⟩
  · intro c
    unfold charHexVal
    split_ifs <;> simp <;> omega
  · intro s pos h
    unfold ParseHalfByte
    rw [h]

/-- Witness for `parse_nonhex_error`: the single code unit `G` (71) is
rejected at position 0. -/
theorem parse_nonhex_error_witness :
    charHexVal (([71] : List Nat).getD 0 0) = none ∧
    ParseHalfByte [71] 0 = .error ⟨"Invalid hexadecimal character!", 0⟩ :=
  ⟨by decide, parse_nonhex_error.2.1 [71] 0 (by decide)⟩

/-!
### C6: hex parsing is case-insensitive
-/

theorem getD_map_zero (f : Nat → Nat) (hf : f 0 = 0) :
    ∀ (s : List Nat) (pos : Nat), (s.map f).getD pos 0 = f (s.getD pos 0) := by
  intro s
  induction s with
  | nil => intro pos; simp [hf]
  | cons a t ih =>
    intro pos
    cases pos with
    | zero => simp
    | succ p => simpa using ih p

theorem charHexVal_updown (c : Nat) :
    charHexVal (upHex c) = charHexVal (downHex c) := by
  by_cases h1 : 97 ≤ c ∧ c ≤ 102
  · have e1 : upHex c = c - 32 := by unfold upHex; exact if_pos h1
    have e2 : downHex c = c := by unfold downHex; exact if_neg (by omega)
    have v1 : charHexVal (c - 32) = some (c - 32 - 65 + 10) := by
      unfold charHexVal
      rw [if_neg (by omega), if_neg (by omega), if_pos (by omega)]
    have v2 : charHexVal c = some (c - 97 + 10) := by
      unfold charHexVal
      rw [if_neg (by omega), if_pos (by omega)]
    rw [e1, e2, v1, v2]
    exact congrArg some (by omega)
  · by_cases h2 : 65 ≤ c ∧ c ≤ 70
    · have e1 : upHex c = c := by unfold upHex; exact if_neg h1
      have e2 : downHex c = c + 32 := by unfold downHex; exact if_pos h2
      have v1 : charHexVal c = some (c - 65 + 10) := by
        unfold charHexVal
        rw [if_neg (by omega), if_neg (by omega), if_pos (by omega)]
      have v2 : charHexVal (c + 32) = some (c + 32 - 97 + 10) := by
        unfold charHexVal
        rw [if_neg (by omega), if_pos (by omega)]
      rw [e1, e2, v1, v2]
      exact congrArg some (by omega)
    · have e1 : upHex c = c := by unfold upHex; exact if_neg h1
      have e2 : downHex c = c := by unfold downHex; exact if_neg h2
      rw [e1, e2]

theorem TryParseChar_updown (s : List Nat) (k : Nat)
    (hk1 : ¬(97 ≤ k ∧ k ≤ 102)) (hk2 : ¬(65 ≤ k ∧ k ≤ 70)) :
    ∀ pos, TryParseChar (s.map upHex) pos k = TryParseChar (s.map downHex) pos k := by
  intro pos
  unfold TryParseChar
  rw [getD_map_zero upHex rfl s pos, getD_map_zero downHex rfl s pos]
  have h : upHex (s.getD pos 0) = k ↔ downHex (s.getD pos 0) = k := by
    unfold upHex downHex
    split_ifs <;> omega
  exact if_congr h rfl rfl

theorem ParseChar_updown (s : List Nat) (k : Nat)
    (hk1 : ¬(97 ≤ k ∧ k ≤ 102)) (hk2 : ¬(65 ≤ k ∧ k ≤ 70)) :
    ∀ pos, ParseChar (s.map upHex) pos k = ParseChar (s.map downHex) pos k := by
  intro pos
  unfold ParseChar
  rw [getD_map_zero upHex rfl s pos, getD_map_zero downHex rfl s pos]
  have h : upHex (s.getD pos 0) = k ↔ downHex (s.getD pos 0) = k := by
    unfold upHex downHex
    split_ifs <;> omega
  exact if_congr h rfl rfl

theorem ParseHalfByte_updown (s : List Nat) :
    ∀ pos, ParseHalfByte (s.map upHex) pos = ParseHalfByte (s.map downHex) pos := by
  intro pos
  unfold ParseHalfByte
  rw [getD_map_zero upHex rfl s pos, getD_map_zero downHex rfl s pos, charHexVal_updown]

theorem ParseByte_updown (s : List Nat) :
    ∀ pos, ParseByte (s.map upHex) pos = ParseByte (s.map downHex) pos := by
  intro pos
  simp only [ParseByte, ParseHalfByte_updown s]

theorem ParseUInt16_updown (s : List Nat) :
    ∀ pos, ParseUInt16 (s.map upHex) pos = ParseUInt16 (s.map downHex) pos := by
  intro pos
  simp only [ParseUInt16, ParseByte_updown s]

theorem ParseUInt32_updown (s : List Nat) :
    ∀ pos, ParseUInt32 (s.map upHex) pos = ParseUInt32 (s.map downHex) pos := by
  intro pos
  simp only [ParseUInt32, ParseUInt16_updown s]

/-- C6: parsing a guid string with every alphabetic hex digit upper-cased
and parsing it with every alphabetic hex digit lower-cased give the same
result (in particular, equal guid values on every well-formed string), and
the half-byte classifier assigns `A`..`F` the values of `a`..`f`. -/
theorem parse_case_insensitive :
    (∀ s : List Nat, parse_guid (s.map upHex) = parse_guid (s.map downHex)) ∧
    (∀ c : Nat, charHexVal (upHex c) = charHexVal (downHex c)) := by
  refine ⟨?_, charHexVal_updown⟩
  intro s
  have h1 := TryParseChar_updown s 123 (by omega) (by omega)
  have h2 := ParseChar_updown s 45 (by omega) (by omega)
  have h3 := ParseChar_updown s 125 (by omega) (by omega)
  have h4 := ParseChar_updown s 0 (by omega) (by omega)
  simp only [parse_guid, parse, h1, h2, h3, h4, ParseUInt32_updown s, ParseUInt16_updown s,
    ParseByte_updown s]

end mrf
